import Mathlib

/-!
Verification of `src/components/Modal.tsx`.

A shallow embedding of the react-native-paper `Modal` component
(file `src/src/components/Modal.tsx`) and proofs about its
visibility/animation state machine.

Modelling notes.

The component is a React function component.  Its observable state consists
of the last `visible` prop supplied by the owner, the mutable ref
`visibleRef` (line 51), the `rendered` React state (line 61), the
transition marker `prevVisible` (line 116), the animated `opacity` value
(line 60), the in-flight `Animated.timing` run on that value, and the
hardware back-button subscription (lines 95-114).

React semantics embedded here:

* A committed render runs the render phase (lines 63-65: a render-phase
  `setRendered(true)` when `visible && !rendered`, which React applies by an
  immediate synchronous re-render) and then the effects **in declaration
  order**: line 53 (`visibleRef.current = visible`), line 95 (back-button
  subscription, net effect: subscribed exactly while `visible`), line 118
  (transition detection against `prevVisible`, which is updated
  unconditionally afterwards, line 126).  `renderEffects` below performs
  exactly this sequence.

* `Animated.timing(opacity, …).start(cb)` supersedes any animation already
  running on `opacity`; the superseded run's completion callback is invoked
  with `finished = false`.  The only completion callback in the file is the
  one installed by `hideModal` (lines 87-92), whose body is guarded by
  `if (finished)`, so a superseded run has no effect (`hideCallback false`
  is proved to be the identity).  The state field `anim` records which
  timing run, if any, is currently active on `opacity`; starting a new run
  overwrites it.

* The owner interacts with the component only through events: re-rendering
  with a `visible` prop, delivering input signals, or unmounting.  In
  particular `rendered` and `opacity` are, by construction of `step`,
  mutated only by the transition logic (`showModal` / `hideModal` /
  the hide-completion callback), never directly by the owner.

`dismissCount`, `showStarts` and `hideStarts` are ghost counters recording
the number of `onDismiss` invocations and of started show/hide timing runs;
they have no influence on control flow.
-/

namespace Modal

/-- Line 22: `const DEFAULT_DURATION = 220`. -/
def DEFAULT_DURATION : ℚ := 220

/-- Embeds `Easing.cubic` of react-native: the cubic curve `t ↦ t³`. -/
def Easing.cubic (t : ℚ) : ℚ := t ^ 3

/-- Embeds `Easing.out(f)` of react-native: runs `f` backwards, `t ↦ 1 - f (1 - t)`. -/
def Easing.out (f : ℚ → ℚ) (t : ℚ) : ℚ := 1 - f (1 - t)

/-- Configuration of an `Animated.timing` run (the fields of the object
literals at lines 68-72 and 82-86 that determine the animation curve). -/
structure TimingConfig where
  toValue : ℚ
  duration : ℚ
  easing : ℚ → ℚ

/-- The timing configuration used by `showModal` (lines 68-73):
target 1, duration `scale * DEFAULT_DURATION`, easing
`Easing.out(Easing.cubic)`.  `scale` is `theme.animation.scale` (line 58). -/
def showConfig (scale : ℚ) : TimingConfig :=
  { toValue := 1
    duration := scale * DEFAULT_DURATION
    easing := Easing.out Easing.cubic }

/-- The timing configuration used by `hideModal` (lines 82-86):
target 0, duration `scale * DEFAULT_DURATION`, easing
`Easing.out(Easing.cubic)`. -/
def hideConfig (scale : ℚ) : TimingConfig :=
  { toValue := 0
    duration := scale * DEFAULT_DURATION
    easing := Easing.out Easing.cubic }

/-- The props of the component that the claims depend on, other than the
per-render `visible` prop.  In the source (lines 39-40) `dismissable`
defaults to `true` and `dismissableBackButton` defaults to `dismissable`. -/
structure Props where
  dismissable : Bool
  dismissableBackButton : Bool
deriving DecidableEq, Repr

/-- The default props: `dismissable = true`, hence
`dismissableBackButton = dismissable = true`. -/
def defaultProps : Props :=
  { dismissable := true, dismissableBackButton := true }

/-- Which `Animated.timing` run is currently active on `opacity`. -/
inductive Anim where
  /-- no timing run active on `opacity` -/
  | Idle
  /-- the run started by `showModal` (toward 1, no completion effects) -/
  | Showing
  /-- the run started by `hideModal` (toward 0, completion callback of
  lines 87-92) -/
  | Hiding
deriving DecidableEq, Repr

/-- The observable state of one `Modal` instance. -/
structure ModalState where
  /-- the instance is mounted (the owner still renders it) -/
  mounted : Bool
  /-- the last `visible` prop supplied by the owner -/
  visible : Bool
  /-- the ref `visibleRef.current` (line 51) -/
  visibleRef : Bool
  /-- the `rendered` React state (line 61) -/
  rendered : Bool
  /-- the ref `prevVisible.current` (line 116); `none` is the initial `null` -/
  prevVisible : Option Bool
  /-- the settled value of the animated `opacity` (line 60); while a run is
  active this is the value the previous run left behind -/
  opacity : ℚ
  /-- the timing run currently active on `opacity` -/
  anim : Anim
  /-- the back-button subscription of lines 107-111 is active -/
  subscribed : Bool
  /-- ghost: number of `onDismiss` invocations so far -/
  dismissCount : ℕ
  /-- ghost: number of show timing runs started so far -/
  showStarts : ℕ
  /-- ghost: number of hide timing runs started so far -/
  hideStarts : ℕ
deriving DecidableEq, Repr

/-- Embeds `showModal` (lines 67-74): start the timing run toward 1.  Starting it
supersedes any run already active on `opacity` (its callback then receives
`finished = false`, which the body of lines 87-92 ignores, see
`hideCallback`). -/
def showModal (s : ModalState) : ModalState :=
  { s with anim := Anim.Showing, showStarts := s.showStarts + 1 }

/-- Embeds `hideModal` (lines 76-93): no-op unless `rendered` and
`visibleRef.current` (lines 77-78); otherwise clear `visibleRef.current`
(line 80) and start the timing run toward 0 (lines 82-87), superseding any
run already active on `opacity`. -/
def hideModal (s : ModalState) : ModalState :=
  if !s.rendered then s
  else if !s.visibleRef then s
  else
    { s with
      visibleRef := false
      anim := Anim.Hiding
      hideStarts := s.hideStarts + 1 }

/-- One committed render of the component with the current `s.visible`
prop: the render-phase update of lines 63-65 followed by the effects of
lines 53-55, 95-114 and 118-127, in declaration order. -/
def renderEffects (s : ModalState) : ModalState :=
  -- lines 63-65: if (visible && !rendered) setRendered(true)
  let s1 := if s.visible && !s.rendered then { s with rendered := true } else s
  -- lines 53-55: visibleRef.current = visible
  let s2 := { s1 with visibleRef := s1.visible }
  -- lines 95-114: subscription present exactly while visible
  let s3 := { s2 with subscribed := s2.visible }
  -- lines 118-127: transition detection against prevVisible
  let s4 :=
    if s3.prevVisible ≠ some s3.visible then
      if s3.visible then showModal s3 else hideModal s3
    else s3
  -- line 126: prevVisible.current = visible, unconditionally
  { s4 with prevVisible := some s4.visible }

/-- The completion callback installed by `hideModal` (lines 87-92):
`if (finished) { onDismissCallback(); setRendered(false); }`.  The
`setRendered(false)` commits a re-render, hence `renderEffects`.  With
`finished = false` (a superseded run) the body does nothing. -/
def hideCallback (finished : Bool) (s : ModalState) : ModalState :=
  if finished then
    renderEffects
      { s with dismissCount := s.dismissCount + 1, rendered := false }
  else s

/-- Embeds `onHardwareBackPress` (lines 100-105): always returns `true` (the
signal is consumed); calls `hideModal` iff
`dismissable || dismissableBackButton`. -/
def onHardwareBackPress (p : Props) (s : ModalState) : Bool × ModalState :=
  if p.dismissable || p.dismissableBackButton then (true, hideModal s)
  else (true, s)

/-- The events the owner and the host platform can deliver to a mounted
instance. -/
inductive Event where
  /-- the owner re-renders the component with prop `visible = b` -/
  | setVisible (b : Bool)
  /-- the timing run active on `opacity` reaches its target naturally
  (`finished = true`) -/
  | animComplete
  /-- a hardware back-button signal -/
  | backPress
  /-- the user presses the backdrop pressable (lines 140-154) -/
  | backdropPress
  /-- the assistive-technology escape gesture (line 137) -/
  | accessibilityEscape
  /-- the owner stops rendering the instance -/
  | unmount
deriving DecidableEq, Repr

/-- One step of the component.  Events reaching an unmounted instance are
dropped.  A backdrop press is deliverable only while the root view accepts
pointer events (`pointerEvents = visible ? 'auto' : 'none'`, line 133) and
the pressable is enabled with a press handler
(`dismissable && rendered`, lines 143-144); the accessibility escape only
while the tree is rendered (line 129). -/
def step (p : Props) (e : Event) (s : ModalState) : ModalState :=
  if !s.mounted then s
  else
    match e with
    | Event.setVisible b => renderEffects { s with visible := b }
    | Event.animComplete =>
        match s.anim with
        | Anim.Idle => s
        | Anim.Showing => { s with anim := Anim.Idle, opacity := 1 }
        | Anim.Hiding =>
            hideCallback true { s with anim := Anim.Idle, opacity := 0 }
    | Event.backPress =>
        if s.subscribed then (onHardwareBackPress p s).2 else s
    | Event.backdropPress =>
        if s.rendered && s.visible && p.dismissable then hideModal s else s
    | Event.accessibilityEscape =>
        if s.rendered then hideModal s else s
    | Event.unmount =>
        { s with mounted := false, subscribed := false, anim := Anim.Idle }

/-- The state of a freshly created instance after its first committed
render: `visibleRef = useRef(visible)` (line 51),
`opacity = useAnimatedValue(visible ? 1 : 0)` (line 60),
`rendered = useState(visible)` (line 61), `prevVisible = useRef(null)`
(line 116), followed by the first run of the effects. -/
def initModal (v : Bool) : ModalState :=
  renderEffects
    { mounted := true
      visible := v
      visibleRef := v
      rendered := v
      prevVisible := none
      opacity := if v then 1 else 0
      anim := Anim.Idle
      subscribed := false
      dismissCount := 0
      showStarts := 0
      hideStarts := 0 }

/-- Run an instance created with initial prop `visible = v` through a
sequence of events. -/
def runModal (p : Props) (v : Bool) (es : List Event) : ModalState :=
  es.foldl (fun s e => step p e s) (initModal v)

end Modal

namespace Modal

/-- The default base test identifier of the component (line 48). -/
def modalTestID : String := "modal"

/-- Number of true-to-false transitions of the visibility intent along an
event trace, starting from intent value `cur`. -/
def falseTransitions : Bool → List Event → ℕ
  | _, [] => 0
  | cur, Event.setVisible b :: es =>
      (if cur && !b then 1 else 0) + falseTransitions b es
  | cur, _ :: es => falseTransitions cur es

/-- What one committed render of the component returns (lines 129-173),
restricted to the fields the claims are about. -/
structure RenderTree where
  /-- line 133: `pointerEvents={visible ? 'auto' : 'none'}`; `true` is
  `'auto'` -/
  pointerEventsAuto : Bool
  /-- line 143: `disabled={!dismissable || !rendered}` -/
  backdropDisabled : Bool
  /-- line 144: `onPress={dismissable && rendered ? hideModal : undefined}`;
  `true` iff a press handler is attached -/
  backdropHasOnPress : Bool
  /-- line 150: the backdrop opacity is bound to the animated value -/
  backdropOpacity : ℚ
  /-- line 167: the surface opacity is bound to the same animated value -/
  surfaceOpacity : ℚ
  /-- line 138 -/
  testID : String
  /-- line 153 -/
  backdropTestID : String
  /-- line 162 -/
  wrapperTestID : String
  /-- line 165 -/
  surfaceTestID : String
deriving DecidableEq, Repr

/-- The render function (lines 129-173): `if (!rendered) return null`
(line 129), otherwise the tree of backdrop, wrapper and surface. -/
def render (p : Props) (testID : String) (s : ModalState) :
    Option RenderTree :=
  if !s.rendered then none
  else
    some
      { pointerEventsAuto := s.visible
        backdropDisabled := !p.dismissable || !s.rendered
        backdropHasOnPress := p.dismissable && s.rendered
        backdropOpacity := s.opacity
        surfaceOpacity := s.opacity
        testID := testID
        backdropTestID := testID ++ "-backdrop"
        wrapperTestID := testID ++ "-wrapper"
        surfaceTestID := testID ++ "-surface" }

end Modal

namespace Modal

/-- The inductive invariant of the component's state machine: `visible`
implies `rendered`; the transition marker agrees with the last prop after
every committed render; the back-button subscription is active iff the
instance is mounted and visible; and the ghost dismiss counter is dominated
by the hide-start counter, an active hide run accounting for the dismissal
it may still deliver. -/
def Inv (s : ModalState) : Prop :=
  (s.visible = true → s.rendered = true) ∧
  s.prevVisible = some s.visible ∧
  s.subscribed = (s.mounted && s.visible) ∧
  s.dismissCount + (if s.anim = Anim.Hiding then 1 else 0) ≤ s.hideStarts

theorem inv_init (v : Bool) : Inv (initModal v) := by
  unfold Inv
  cases v
  all_goals decide

theorem hideModal_inv (s : ModalState) (h : Inv s) : Inv (hideModal s) := by
  obtain ⟨h1, h2, h3, h4⟩ := h
  unfold Inv hideModal
  split_ifs <;> (simp_all; try omega)

theorem renderEffects_inv (s : ModalState) (hm : s.mounted = true)
    (hc : s.dismissCount + (if s.anim = Anim.Hiding then 1 else 0)
            ≤ s.hideStarts) :
    Inv (renderEffects s) := by
  simp only [Inv, renderEffects, showModal, hideModal]
  split_ifs <;> (simp_all; try omega)

theorem backPressTarget_inv (p : Props) (s : ModalState) (h : Inv s) :
    Inv (onHardwareBackPress p s).2 := by
  unfold onHardwareBackPress
  split_ifs <;> simp only <;>
    first
      | exact hideModal_inv s h
      | exact h

theorem inv_step (p : Props) (e : Event) (s : ModalState) (h : Inv s) :
    Inv (step p e s) := by
  by_cases hm : s.mounted = true
  case neg =>
    have hs : step p e s = s := by
      unfold step
      simp [Bool.not_eq_true] at hm
      simp [hm]
    rw [hs]
    exact h
  case pos =>
  obtain ⟨h1, h2, h3, h4⟩ := h
  have h4' : s.dismissCount ≤ s.hideStarts := by
    split_ifs at h4 <;> omega
  cases e with
  | setVisible b =>
      have hs : step p (Event.setVisible b) s
          = renderEffects { s with visible := b } := by
        simp [step, hm]
      rw [hs]
      exact renderEffects_inv _ (by simp [hm]) (by simpa using h4)
  | animComplete =>
      cases ha : s.anim with
      | Idle =>
          have hs : step p Event.animComplete s = s := by
            simp [step, hm, ha]
          rw [hs]
          exact ⟨h1, h2, h3, h4⟩
      | Showing =>
          have hs : step p Event.animComplete s
              = { s with anim := Anim.Idle, opacity := 1 } := by
            simp [step, hm, ha]
          rw [hs]
          exact ⟨by simpa using h1, by simpa using h2, by simpa using h3,
            by simp; omega⟩
      | Hiding =>
          have hs : step p Event.animComplete s
              = renderEffects
                  { s with
                    anim := Anim.Idle
                    opacity := 0
                    dismissCount := s.dismissCount + 1
                    rendered := false } := by
            simp [step, hm, ha, hideCallback]
          rw [hs]
          refine renderEffects_inv _ (by simp [hm]) ?_
          rw [ha] at h4
          simp at h4 ⊢
          omega
  | backPress =>
      have hs : step p Event.backPress s
          = if s.subscribed = true then (onHardwareBackPress p s).2 else s := by
        simp [step, hm]
      rw [hs]
      split_ifs with hsub
      · exact backPressTarget_inv p s ⟨h1, h2, h3, h4⟩
      · exact ⟨h1, h2, h3, h4⟩
  | backdropPress =>
      have hs : step p Event.backdropPress s
          = if (s.rendered && s.visible && p.dismissable) = true
            then hideModal s else s := by
        simp [step, hm]
      rw [hs]
      split_ifs with hc
      · exact hideModal_inv s ⟨h1, h2, h3, h4⟩
      · exact ⟨h1, h2, h3, h4⟩
  | accessibilityEscape =>
      have hs : step p Event.accessibilityEscape s
          = if s.rendered = true then hideModal s else s := by
        simp [step, hm]
      rw [hs]
      split_ifs with hc
      · exact hideModal_inv s ⟨h1, h2, h3, h4⟩
      · exact ⟨h1, h2, h3, h4⟩
  | unmount =>
      have hs : step p Event.unmount s
          = { s with
              mounted := false
              subscribed := false
              anim := Anim.Idle } := by
        simp [step, hm]
      rw [hs]
      exact ⟨by simpa using h1, by simpa using h2, by simp,
        by simp; omega⟩

theorem foldl_inv {P : ModalState → Prop}
    (f : ModalState → Event → ModalState)
    (hf : ∀ s e, P s → P (f s e)) :
    ∀ (es : List Event) (s : ModalState), P s → P (es.foldl f s) := by
  intro es
  induction es with
  | nil => intro s h; exact h
  | cons e es ih => intro s h; exact ih _ (hf s e h)

theorem inv_run (p : Props) (v : Bool) (es : List Event) :
    Inv (runModal p v es) :=
  foldl_inv _ (fun s e h => inv_step p e s h) es _ (inv_init v)

end Modal

namespace Modal

/-- Claim C9: both the show and the hide animation use the same duration —
the base constant `DEFAULT_DURATION = 220` multiplied by the theme's
animation-speed scale — and the same ease-out cubic easing curve
`t ↦ 1 - (1 - t)³`; they differ only in the target opacity, 1 for show
and 0 for hide. -/
theorem show_hide_same_duration_and_easing (scale : ℚ) :
    (showConfig scale).duration = scale * 220 ∧
    (hideConfig scale).duration = scale * 220 ∧
    DEFAULT_DURATION = 220 ∧
    (showConfig scale).easing = (hideConfig scale).easing ∧
    (∀ t : ℚ, (showConfig scale).easing t = 1 - (1 - t) ^ 3) ∧
    (showConfig scale).toValue = 1 ∧
    (hideConfig scale).toValue = 0 :=
  ⟨rfl, rfl, rfl, rfl, fun _ => rfl, rfl, rfl⟩

/-- Claim C10: at creation the animated opacity is initialized to 1 when the
initial visibility intent is true and to 0 otherwise; a modal mounted with
`visible = true` starts its initial show run from, and toward, opacity 1,
so no fade-in is visible on first mount. -/
theorem initial_opacity_matches_intent :
    (initModal true).opacity = 1 ∧
    (initModal false).opacity = 0 ∧
    (initModal true).anim = Anim.Showing ∧
    (∀ scale : ℚ, (showConfig scale).toValue = (initModal true).opacity) :=
  ⟨by decide, by decide, by decide, fun _ => rfl⟩

/-- Claim C2: in every reachable state, a true visibility intent implies the
`rendered` flag is true — the state `visible = true, rendered = false` is
never observable; the converse fails: after mounting visible and setting
the intent to false the component is still rendered.  (In the model the
owner acts on the instance only through `step` events, so `rendered` and
`opacity` are by construction mutated only by the transition logic, never
directly by the owner.) -/
theorem visible_implies_rendered (p : Props) (v : Bool) (es : List Event) :
    ((runModal p v es).visible = true → (runModal p v es).rendered = true) ∧
    ((runModal defaultProps true [Event.setVisible false]).rendered = true ∧
     (runModal defaultProps true [Event.setVisible false]).visible = false) :=
  ⟨(inv_run p v es).1, by decide⟩

/-- Witness for `visible_implies_rendered` on a concrete trace. -/
theorem visible_implies_rendered_witness :
    (runModal defaultProps true [Event.animComplete]).rendered = true :=
  (visible_implies_rendered defaultProps true [Event.animComplete]).1 (by decide)

/-- Claim C8: at every reachable point, the hardware back-button subscription
is active if and only if the visibility intent is true and the component is
mounted; in particular it is acquired when the intent becomes true and
released when it becomes false or the component is destroyed, on every
exit path. -/
theorem subscription_iff_mounted_and_visible (p : Props) (v : Bool)
    (es : List Event) :
    (runModal p v es).subscribed
      = ((runModal p v es).mounted && (runModal p v es).visible) :=
  (inv_run p v es).2.2.1

end Modal

namespace Modal

/-- The guard of line 77: an unrendered instance makes `hideModal` return
without any effect. -/
theorem hideModal_of_not_rendered (s : ModalState) (h : s.rendered = false) :
    hideModal s = s := by
  unfold hideModal
  simp [h]

/-- The guard of line 78: a cleared internal visibility flag makes
`hideModal` return without any effect. -/
theorem hideModal_of_not_visibleRef (s : ModalState)
    (h : s.visibleRef = false) :
    hideModal s = s := by
  unfold hideModal
  split_ifs <;> simp_all

/-- Lemma: `hideModal` clears the internal visibility flag whenever it runs. -/
theorem hideModal_visibleRef (s : ModalState) :
    (hideModal s).visibleRef = false ∨ hideModal s = s := by
  unfold hideModal
  split_ifs <;> simp_all

/-- Claim C5: `hideModal` is a no-op — the entire state is unchanged and no
animation is started — whenever the component is not rendered or the
internal visibility flag is already false (lines 77-78); consequently it
is idempotent, so overlapping dismissal triggers never start duplicate
hide runs. -/
theorem hideModal_guard_noop (s : ModalState) :
    ((s.rendered = false ∨ s.visibleRef = false) → hideModal s = s) ∧
    hideModal (hideModal s) = hideModal s := by
  constructor
  · rintro (h | h)
    · exact hideModal_of_not_rendered s h
    · exact hideModal_of_not_visibleRef s h
  · rcases hideModal_visibleRef s with h | h
    · exact hideModal_of_not_visibleRef _ h
    · simp only [h]

/-- Witness for `hideModal_guard_noop` on a concrete state. -/
theorem hideModal_guard_noop_witness :
    hideModal (initModal false) = initModal false :=
  (hideModal_guard_noop (initModal false)).1 (Or.inl (by decide))

/-- Claim C4: the hardware back-press handler always reports the signal as
consumed (returns `true`); it requests a hide — calls `hideModal` — iff
`dismissable` or `dismissableBackButton` is true, and with both flags
false it leaves the state unchanged; delivery of the signal while the
intent is true and the instance mounted goes through this handler (the
subscription is active exactly then). -/
theorem back_press_consumed_hide_iff_flags (p : Props) (v : Bool)
    (es : List Event) :
    (onHardwareBackPress p (runModal p v es)).1 = true ∧
    ((p.dismissable || p.dismissableBackButton) = true →
      (onHardwareBackPress p (runModal p v es)).2
        = hideModal (runModal p v es)) ∧
    ((p.dismissable || p.dismissableBackButton) = false →
      (onHardwareBackPress p (runModal p v es)).2 = runModal p v es) ∧
    ((runModal p v es).visible = true → (runModal p v es).mounted = true →
      step p Event.backPress (runModal p v es)
        = (onHardwareBackPress p (runModal p v es)).2) := by
  refine ⟨?_, ?_, ?_, ?_⟩
  · unfold onHardwareBackPress
    split_ifs <;> rfl
  · intro h
    unfold onHardwareBackPress
    simp [h]
  · intro h
    unfold onHardwareBackPress
    simp [h]
  · intro hv hm
    have hsub := (inv_run p v es).2.2.1
    rw [hv, hm] at hsub
    simp only [Bool.and_self] at hsub
    unfold step
    simp [hm, hsub]

/-- Witness for `back_press_consumed_hide_iff_flags` on a concrete state. -/
theorem back_press_consumed_hide_iff_flags_witness :
    step defaultProps Event.backPress (runModal defaultProps true [])
      = (onHardwareBackPress defaultProps (runModal defaultProps true [])).2 :=
  (back_press_consumed_hide_iff_flags defaultProps true []).2.2.2
    (by decide) (by decide)

/-- Claim C6: a backdrop press with `dismissable = false` causes no state
change (the pressable is disabled and has no press handler); a press
delivered while `dismissable` is true, the component is rendered and the
root view accepts pointer input invokes `hideModal`, and when the internal
visibility flag is still set this starts the hide run toward opacity 0. -/
theorem backdrop_press_dismissable (p : Props) (s : ModalState) :
    (p.dismissable = false → step p Event.backdropPress s = s) ∧
    (p.dismissable = true → s.rendered = true → s.visible = true →
      s.mounted = true →
      step p Event.backdropPress s = hideModal s) ∧
    (p.dismissable = true → s.rendered = true → s.visible = true →
      s.mounted = true → s.visibleRef = true →
      (step p Event.backdropPress s).anim = Anim.Hiding ∧
      (step p Event.backdropPress s).hideStarts = s.hideStarts + 1) := by
  refine ⟨?_, ?_, ?_⟩
  · intro h
    unfold step
    split_ifs <;> simp_all
  · intro hd hr hv hm
    unfold step
    simp [hd, hr, hv, hm]
  · intro hd hr hv hm hvr
    have hstep : step p Event.backdropPress s = hideModal s := by
      unfold step
      simp [hd, hr, hv, hm]
    rw [hstep]
    unfold hideModal
    simp [hr, hvr]

/-- Witness for `backdrop_press_dismissable` on a concrete state. -/
theorem backdrop_press_dismissable_witness :
    (step defaultProps Event.backdropPress (initModal true)).anim
        = Anim.Hiding ∧
    (step defaultProps Event.backdropPress (initModal true)).hideStarts
        = (initModal true).hideStarts + 1 :=
  (backdrop_press_dismissable defaultProps (initModal true)).2.2
    rfl (by decide) (by decide) (by decide) (by decide)

end Modal

namespace Modal

theorem renderEffects_fixed (s : ModalState)
    (h1 : s.visible = true → s.rendered = true)
    (h2 : s.prevVisible = some s.visible) :
    renderEffects s
      = { s with
          visibleRef := s.visible
          subscribed := s.visible
          prevVisible := some s.visible } := by
  unfold renderEffects
  have hvr : (s.visible && !s.rendered) = false := by
    cases hvis : s.visible
    · simp
    · simp [h1 hvis]
  simp [hvr, h2]

/-- Claim C7: re-rendering with an unchanged visibility intent is idempotent. -/
theorem rerender_same_intent_idempotent (p : Props) (v : Bool)
    (es : List Event) :
    (step p (Event.setVisible (runModal p v es).visible)
        (runModal p v es)).rendered = (runModal p v es).rendered ∧
    (step p (Event.setVisible (runModal p v es).visible)
        (runModal p v es)).anim = (runModal p v es).anim ∧
    (step p (Event.setVisible (runModal p v es).visible)
        (runModal p v es)).showStarts = (runModal p v es).showStarts ∧
    (step p (Event.setVisible (runModal p v es).visible)
        (runModal p v es)).hideStarts = (runModal p v es).hideStarts ∧
    (step p (Event.setVisible (runModal p v es).visible)
        (runModal p v es)).opacity = (runModal p v es).opacity ∧
    (step p (Event.setVisible (runModal p v es).visible)
        (runModal p v es)).prevVisible = some (runModal p v es).visible := by
  obtain ⟨h1, h2, h3, h4⟩ := inv_run p v es
  by_cases hm : (runModal p v es).mounted = true
  · have hstep : step p (Event.setVisible (runModal p v es).visible)
        (runModal p v es) = renderEffects (runModal p v es) := by
      unfold step
      have hcond : (!(runModal p v es).mounted) = false := by
        rw [hm]
        rfl
      rw [hcond]
      rfl
    rw [hstep, renderEffects_fixed _ h1 h2]
    simp
  · have hstep : step p (Event.setVisible (runModal p v es).visible)
        (runModal p v es) = runModal p v es := by
      unfold step
      simp [Bool.not_eq_true] at hm
      simp [hm]
    rw [hstep]
    exact ⟨rfl, rfl, rfl, rfl, rfl, h2⟩

end Modal

namespace Modal

/-- Claim C3 is false on the code: line 129 tests the `rendered` flag, not
the visibility intent, so after mounting visible and setting the intent to
false the intent is false yet the render function still returns a tree. -/
theorem render_nonempty_with_intent_false :
    (runModal defaultProps true [Event.setVisible false]).visible = false ∧
    (render defaultProps modalTestID
        (runModal defaultProps true [Event.setVisible false])).isSome
      = true := by
  decide

/-- Claim C3 (amended): the render function returns the empty render exactly
when the `rendered` flag is false; in every reachable state a true intent
implies a non-empty render, and while `rendered` is still true with the
intent false (a hide pending) the tree is still produced, with pointer
input disabled. -/
theorem render_empty_iff_not_rendered (p : Props) (tid : String) (v : Bool)
    (es : List Event) :
    (render p tid (runModal p v es) = none
        ↔ (runModal p v es).rendered = false) ∧
    ((runModal p v es).visible = true →
      (render p tid (runModal p v es)).isSome = true) ∧
    ((runModal p v es).rendered = true → (runModal p v es).visible = false →
      ∃ t, render p tid (runModal p v es) = some t
        ∧ t.pointerEventsAuto = false) := by
  refine ⟨?_, ?_, ?_⟩
  · unfold render
    split_ifs with h
    · simp_all
    · simp_all
  · intro hv
    have hr := (inv_run p v es).1 hv
    unfold render
    simp [hr]
  · intro hr hv
    unfold render
    simp only [hr]
    refine ⟨_, rfl, ?_⟩
    simpa using hv

/-- Witness for `render_empty_iff_not_rendered` on a concrete trace. -/
theorem render_empty_iff_not_rendered_witness :
    (render defaultProps modalTestID (runModal defaultProps true [])).isSome
      = true :=
  (render_empty_iff_not_rendered defaultProps modalTestID true []).2.1 (by decide)

end Modal

namespace Modal


/-- Lemma: `hideModal` never touches the dismiss counter: `onDismiss` is invoked
only from the completion callback. -/
theorem hideModal_dismissCount (s : ModalState) :
    (hideModal s).dismissCount = s.dismissCount := by
  unfold hideModal
  split_ifs <;> rfl

/-- A committed render never invokes `onDismiss`. -/
theorem renderEffects_dismissCount (s : ModalState) :
    (renderEffects s).dismissCount = s.dismissCount := by
  simp only [renderEffects, showModal, hideModal]
  split_ifs <;> rfl

/-- Claim C1 is false on the code as stated: a backdrop press while the
intent stays true yields one `onDismiss` invocation although the
visibility intent makes no true-to-false transition at all, so the
callback is not bounded by one invocation per true-to-false transition of
the intent. -/
theorem dismiss_without_intent_transition :
    (runModal defaultProps true
        [Event.animComplete, Event.backdropPress,
         Event.animComplete]).dismissCount = 1 ∧
    falseTransitions true
        [Event.animComplete, Event.backdropPress, Event.animComplete]
      = 0 := by
  decide

/-- Claim C1 (amended): `onDismiss` fires at most once per started hide run
— each internal true-to-false transition of the visibility flag performed
by `hideModal` — and only when that run reports natural completion: a
superseded run's callback (`finished = false`) neither invokes `onDismiss`
nor unmounts, completing a non-hide run never dismisses, and no other
event dismisses; rapid toggling true→false→true while a hide run is in
flight supersedes it, leaving the component rendered with the dismiss
callback never fired for the interrupted hide. -/
theorem dismiss_once_per_hide_start (p : Props) (v : Bool)
    (es : List Event) :
    (runModal p v es).dismissCount ≤ (runModal p v es).hideStarts ∧
    (∀ s : ModalState, hideCallback false s = s) ∧
    (∀ s : ModalState, s.anim ≠ Anim.Hiding →
      (step p Event.animComplete s).dismissCount = s.dismissCount) ∧
    (∀ s : ModalState, ∀ e : Event, e ≠ Event.animComplete →
      (step p e s).dismissCount = s.dismissCount) ∧
    ((runModal defaultProps true
        [Event.backdropPress, Event.setVisible false, Event.setVisible true,
         Event.animComplete]).rendered = true ∧
     (runModal defaultProps true
        [Event.backdropPress, Event.setVisible false, Event.setVisible true,
         Event.animComplete]).dismissCount = 0) := by
  refine ⟨?_, ?_, ?_, ?_, by decide⟩
  · have h4 := (inv_run p v es).2.2.2
    split_ifs at h4 <;> omega
  · intro s
    rfl
  · intro s ha
    by_cases hm : s.mounted = true
    · cases haa : s.anim with
      | Idle =>
          have hs : step p Event.animComplete s = s := by
            simp [step, hm, haa]
          rw [hs]
      | Showing =>
          have hs : step p Event.animComplete s
              = { s with anim := Anim.Idle, opacity := 1 } := by
            simp [step, hm, haa]
          rw [hs]
      | Hiding => exact absurd haa ha
    · have hs : step p Event.animComplete s = s := by
        unfold step
        simp [Bool.not_eq_true] at hm
        simp [hm]
      rw [hs]
  · intro s e he
    by_cases hm : s.mounted = true
    case neg =>
      have hs : step p e s = s := by
        unfold step
        simp [Bool.not_eq_true] at hm
        simp [hm]
      rw [hs]
    case pos =>
    cases e with
    | setVisible b =>
        have hs : step p (Event.setVisible b) s
            = renderEffects { s with visible := b } := by
          simp [step, hm]
        rw [hs, renderEffects_dismissCount]
    | animComplete => exact absurd rfl he
    | backPress =>
        have hs : step p Event.backPress s
            = if s.subscribed = true then (onHardwareBackPress p s).2
              else s := by
          simp [step, hm]
        rw [hs]
        split_ifs
        · unfold onHardwareBackPress
          split_ifs
          · exact hideModal_dismissCount s
          · rfl
        · rfl
    | backdropPress =>
        have hs : step p Event.backdropPress s
            = if (s.rendered && s.visible && p.dismissable) = true
              then hideModal s else s := by
          simp [step, hm]
        rw [hs]
        split_ifs
        · exact hideModal_dismissCount s
        · rfl
    | accessibilityEscape =>
        have hs : step p Event.accessibilityEscape s
            = if s.rendered = true then hideModal s else s := by
          simp [step, hm]
        rw [hs]
        split_ifs
        · exact hideModal_dismissCount s
        · rfl
    | unmount =>
        have hs : step p Event.unmount s
            = { s with
                mounted := false
                subscribed := false
                anim := Anim.Idle } := by
          simp [step, hm]
        rw [hs]

/-- Witness for `dismiss_once_per_hide_start` on concrete inputs. -/
theorem dismiss_once_per_hide_start_witness :
    (step defaultProps Event.animComplete (initModal false)).dismissCount
      = (initModal false).dismissCount :=
  (dismiss_once_per_hide_start defaultProps false []).2.2.1
    (initModal false) (by decide)

end Modal
